import Mathlib

/-!
# Shallow embedding of the Xero-Integration order/quote → invoice transformation

This file embeds the pure transformation core of the repository
(`src/routes/order-to-invoice.js` and the legacy `src/routes/shopifyWebhook.js`)
and proves the specification claims about it.

Modelling conventions:

* A JavaScript scalar (as delivered by a JSON request body) is a `JVal`:
  string, number, boolean or null.  An absent field (JS `undefined`) is
  `none : Option JVal`.
* JS numbers originating from JSON are finite decimals, which the involved
  arithmetic (`*`, `parseFloat`, `toFixed`) treats exactly on the values of
  interest; we model them as exact rationals `JNum` (integer numerator,
  positive denominator).  `NaN` is modelled as `none : Option JNum` and is
  propagated explicitly.  JS infinities and the exponent-form rendering of
  numbers of magnitude ≥ 1e21 are outside the model (never produced by the
  inputs the claims quantify over).
* The wall-clock reads (`new Date()`, `Date.now()`) in the document builders
  are injected as an explicit `Clock` value.
-/

/-- An exact rational: integer numerator over a positive denominator.
Operations do not normalise (denominators multiply); rendering normalises
with `Nat.gcd`.  Stands in for the JS (IEEE) numbers of the source, exactly
on JSON-decimal values. -/
structure JNum where
  num : Int
  den : Nat
deriving DecidableEq, Repr

/-- Numeric multiplication on `JNum`. -/
def JNum.mul (a b : JNum) : JNum := ⟨a.num * b.num, a.den * b.den⟩

/-- Numeric negation on `JNum`. -/
def JNum.neg (a : JNum) : JNum := ⟨-a.num, a.den⟩

/-- Is the number strictly positive?  (Denominators are positive by
construction everywhere this is applied.) -/
def JNum.isPos (a : JNum) : Bool := 0 < a.num

/-- Is the number zero? -/
def JNum.isZero (a : JNum) : Bool := a.num == 0

/-- The integer `n` as a `JNum`. -/
def JNum.ofInt (n : Int) : JNum := ⟨n, 1⟩

/-- A JavaScript scalar value as found in a parsed JSON body.
JS `undefined` (an absent field) is represented as `none : Option JVal`. -/
inductive JVal where
  | jstr (s : String)
  | jnum (q : JNum)
  | jbool (b : Bool)
  | jnull
deriving DecidableEq, Repr

/-- JS truthiness of a possibly-absent value: `undefined`, `null`, `false`,
`0` and `""` are falsy, everything else is truthy.  (JS `NaN` is also falsy,
but `NaN` is not a JSON value and never reaches a truthiness test in the
embedded code.) -/
def truthy : Option JVal → Bool
  | none => false
  | some JVal.jnull => false
  | some (JVal.jbool b) => b
  | some (JVal.jnum q) => !q.isZero
  | some (JVal.jstr s) => s ≠ ""

/-- JS `a || b` on possibly-absent values: `a` if truthy, else `b`. -/
def jsOr (a b : Option JVal) : Option JVal := if truthy a then a else b

/-- JS `a || d` where `d` is a present literal default. -/
def jsOrD (a : Option JVal) (d : JVal) : JVal :=
  if truthy a then a.getD d else d

/-- JS `a || b || d` where `d` is a present literal default. -/
def jsOr3 (a b : Option JVal) (d : JVal) : JVal :=
  if truthy a then a.getD d else if truthy b then b.getD d else d

/-! ## Numeric parsing (`parseFloat`, `parseInt`) and rendering -/

/-- Decimal digit test. -/
def isDigitCh (c : Char) : Bool := '0' ≤ c && c ≤ '9'

/-- JS whitespace skipped by `parseFloat`/`parseInt` (the common cases). -/
def isWS (c : Char) : Bool := c = ' ' || c = '\t' || c = '\n' || c = '\r'

/-- Value of a decimal digit character. -/
def digitVal (c : Char) : Nat := c.toNat - '0'.toNat

/-- The natural number denoted by a list of decimal digits. -/
def natOfDigits (ds : List Char) : Nat :=
  ds.foldl (fun a c => a * 10 + digitVal c) 0

/-- Consume an optional leading sign; `true` means negative. -/
def parseSign : List Char → Bool × List Char
  | '-' :: cs => (true, cs)
  | '+' :: cs => (false, cs)
  | cs => (false, cs)

/-- Parse the decimal mantissa `Digits ('.' Digits?)? | '.' Digits` at the
front of the input, returning its value and the rest of the input. -/
def parseMantissa (cs : List Char) : Option (JNum × List Char) :=
  let (ids, rest) := cs.span isDigitCh
  match rest with
  | '.' :: rest2 =>
    let (fds, rest3) := rest2.span isDigitCh
    if ids.isEmpty && fds.isEmpty then none
    else
      some (⟨((natOfDigits ids * 10 ^ fds.length + natOfDigits fds : Nat) : Int),
             10 ^ fds.length⟩, rest3)
  | _ =>
    if ids.isEmpty then none else some (⟨(natOfDigits ids : Nat), 1⟩, rest)

/-- Parse an optional exponent part `[eE][+-]?Digits`; a malformed exponent
part is ignored (JS takes the longest valid numeric prefix). -/
def parseExp (cs : List Char) : Int :=
  match cs with
  | c :: rest =>
    if c = 'e' || c = 'E' then
      let (eneg, rest2) := parseSign rest
      let (eds, _) := rest2.span isDigitCh
      if eds.isEmpty then 0
      else if eneg then -(natOfDigits eds : Int) else (natOfDigits eds : Int)
    else 0
  | [] => 0

/-- Scale a mantissa by `10 ^ e`. -/
def applyExp (m : JNum) (e : Int) : JNum :=
  if 0 ≤ e then ⟨m.num * ((10 : Int) ^ e.toNat), m.den⟩
  else ⟨m.num, m.den * 10 ^ (-e).toNat⟩

/-- JS `parseFloat` on a string: skip whitespace, optional sign, decimal
mantissa with optional exponent, ignore trailing garbage; `none` is `NaN`.
(The `"Infinity"` literal is outside the model.) -/
def parseFloatStr (s : String) : Option JNum :=
  let cs := s.toList.dropWhile isWS
  let (neg, cs1) := parseSign cs
  match parseMantissa cs1 with
  | none => none
  | some (m, rest) =>
    let v := applyExp m (parseExp rest)
    some (if neg then v.neg else v)

/-- JS `parseInt` (radix 10) on a string: skip whitespace, optional sign,
longest digit run; `none` is `NaN`.  (Auto-detected hex prefixes are outside
the model; the embedded inputs are decimal.) -/
def parseIntStr (s : String) : Option Int :=
  let cs := s.toList.dropWhile isWS
  let (neg, cs1) := parseSign cs
  let (ds, _) := cs1.span isDigitCh
  if ds.isEmpty then none
  else some (if neg then -(natOfDigits ds : Int) else (natOfDigits ds : Int))

/-- Left-pad a digit string with zeros to length `k`. -/
def padZeros (k : Nat) (s : String) : String :=
  String.mk (List.replicate (k - s.length) '0') ++ s

/-- JS `String(n)` for a number: exact decimal expansion (after normalising
the fraction) when the denominator divides a power of ten — the case of every
JSON-decimal value; a fraction rendering otherwise (unreachable for the
values the claims touch). -/
def JNum.toStr (q : JNum) : String :=
  let sign := if q.num < 0 then "-" else ""
  let g := Nat.gcd q.num.natAbs q.den
  let n := q.num.natAbs / g
  let d := q.den / g
  match (List.range 40).find? (fun k => 10 ^ k % d == 0) with
  | some k =>
    let a := n * (10 ^ k / d)
    if k == 0 then sign ++ toString a
    else sign ++ toString (a / 10 ^ k) ++ "." ++ padZeros k (toString (a % 10 ^ k))
  | none => sign ++ toString n ++ "/" ++ toString d

/-- JS `(x).toFixed(2)`: sign is taken first, then the magnitude is rounded
to the nearest hundredth, ties upward. -/
def JNum.toFixed2 (q : JNum) : String :=
  let a : Nat := (200 * q.num.natAbs + q.den) / (2 * q.den)
  (if q.num < 0 then "-" else "") ++ toString (a / 100) ++ "." ++ padZeros 2 (toString (a % 100))

/-- `toFixed(2)` lifted to possibly-`NaN` numbers: JS renders `NaN` as `"NaN"`. -/
def toFixed2N : Option JNum → String
  | none => "NaN"
  | some q => q.toFixed2

/-- `NaN`-propagating multiplication. -/
def mulN (a b : Option JNum) : Option JNum :=
  match a, b with
  | some x, some y => some (x.mul y)
  | _, _ => none

/-- JS string interpolation of a value. -/
def JVal.toStr : JVal → String
  | JVal.jstr s => s
  | JVal.jnum q => q.toStr
  | JVal.jbool b => if b then "true" else "false"
  | JVal.jnull => "null"

/-- JS string interpolation of a possibly-absent value (renders `undefined`). -/
def jsToString : Option JVal → String
  | none => "undefined"
  | some v => v.toStr

/-- JS `parseFloat` on a value: numbers pass through (their string rendering
re-parses to the same value), strings are parsed, other values are `NaN`. -/
def parseFloatV : JVal → Option JNum
  | JVal.jstr s => parseFloatStr s
  | JVal.jnum q => some q
  | JVal.jbool _ => none
  | JVal.jnull => none

/-- `parseFloat` of a possibly-absent value (`parseFloat(undefined)` is `NaN`). -/
def parseFloatU : Option JVal → Option JNum
  | none => none
  | some v => parseFloatV v

/-- JS `parseInt` on a value: numbers are stringified and re-parsed (truncation
toward zero for plain-decimal renderings), strings are parsed, others are `NaN`. -/
def parseIntV : JVal → Option Int
  | JVal.jstr s => parseIntStr s
  | JVal.jnum q => parseIntStr q.toStr
  | JVal.jbool _ => none
  | JVal.jnull => none

/-- `parseInt` of a possibly-absent value. -/
def parseIntU : Option JVal → Option Int
  | none => none
  | some v => parseIntV v

section ModelChecks

example : parseFloatStr "1.5" = some ⟨15, 10⟩ := by decide
example : parseFloatStr "abc" = none := by decide
example : parseFloatStr "-2.5e1" = some ⟨-250, 10⟩ := by decide
example : parseIntStr "12.7" = some 12 := by decide
example : JNum.toStr ⟨15, 10⟩ = "1.5" := by decide
example : JNum.toStr ⟨2, 4⟩ = "0.5" := by decide
example : JNum.toStr ⟨-120, 1⟩ = "-120" := by decide
example : JNum.toFixed2 ⟨120, 1⟩ = "120.00" := by decide
example : JNum.toFixed2 ⟨-5, 1⟩ = "-5.00" := by decide
example : JNum.toFixed2 ⟨15, 10⟩ = "1.50" := by decide
example : toFixed2N (mulN (some ⟨10, 1⟩) none) = "NaN" := by decide
example : parseIntV (JVal.jnum ⟨27, 10⟩) = some 2 := by decide

end ModelChecks

/-! ## The raw order data model (`src/routes/order-to-invoice.js`)

Optional structure fields default to `none` (JS `undefined`). -/

/-- One entry of a line item's `properties` list (a free-form key/value pair). -/
structure RawProp where
  name : String
  value : JVal
deriving DecidableEq, Repr

/-- A raw order line item. -/
structure RawLineItem where
  title : Option JVal := none
  name : Option JVal := none
  quantity : Option JVal := none
  price : Option JVal := none
  sku : Option JVal := none
  taxable : Option JVal := none
  properties : Option (List RawProp) := none
deriving DecidableEq, Repr

/-- A raw postal-address-ish object (billing/shipping/default address). -/
structure RawAddress where
  name : Option JVal := none
  address1 : Option JVal := none
  address2 : Option JVal := none
  city : Option JVal := none
  province : Option JVal := none
  state : Option JVal := none
  zip : Option JVal := none
  country : Option JVal := none
  phone : Option JVal := none
  email : Option JVal := none
deriving DecidableEq, Repr

/-- The raw `customer` object of an order. -/
structure RawCustomer where
  first_name : Option JVal := none
  last_name : Option JVal := none
  email : Option JVal := none
  default_address : Option RawAddress := none
deriving DecidableEq, Repr

/-- One entry of `shipping_lines`. -/
structure RawShippingLine where
  price : Option JVal := none
deriving DecidableEq, Repr

/-- A raw order as received by the order endpoints. -/
structure RawOrder where
  id : Option JVal := none
  order_number : Option JVal := none
  name : Option JVal := none
  email : Option JVal := none
  customer : Option RawCustomer := none
  customer_name : Option JVal := none
  billing_address : Option RawAddress := none
  shipping_address : Option RawAddress := none
  line_items : Option (List RawLineItem) := none
  currency : Option JVal := none
  shipping_lines : Option (List RawShippingLine) := none
  total_tax : Option JVal := none
  total_discounts : Option JVal := none
  note : Option JVal := none
deriving DecidableEq, Repr

/-! ## The canonical invoice document -/

/-- A canonical invoice line as produced by `transformOrderToInvoice`.
`itemCode`/`taxType` are `none` when the corresponding key is absent from the
produced JS object. -/
structure CanonicalLine where
  description : JVal
  quantity : Int
  unitAmount : String
  accountCode : String
  itemCode : Option JVal := none
  taxType : Option String := none
deriving DecidableEq, Repr

/-- The single canonical address entry built from a billing address. -/
structure CanonicalAddress where
  addressType : String
  addressLine1 : JVal
  addressLine2 : JVal
  city : JVal
  region : JVal
  postalCode : JVal
  country : JVal
deriving DecidableEq, Repr

/-- The canonical contact of an invoice document. -/
structure Contact where
  name : JVal
  emailAddress : Option JVal
  phone : Option JVal := none
  addresses : List CanonicalAddress
deriving DecidableEq, Repr

/-- The wall-clock values read by the document builders (`new Date()`,
`Date.now()`), injected so the embedding is a pure function. -/
structure Clock where
  todayISO : String
  duePlus30ISO : String
  nowMs : Nat
deriving DecidableEq, Repr

/-- The canonical invoice document.  `lineAmountTypes = none` means the key is
absent from the produced JS object. -/
structure InvoiceDoc where
  type : String
  contact : Contact
  lineItems : List CanonicalLine
  date : String
  dueDate : String
  invoiceNumber : JVal
  reference : String
  status : String
  currencyCode : JVal
  lineAmountTypes : Option String := none
deriving DecidableEq, Repr

/-! ## The line-item normaliser -/

/-- `Object.fromEntries(item.properties.map(p => [p.name, p.value]))` read at
key `k`: last entry wins on duplicate keys; an absent `properties` list gives
the empty object. -/
def getProp (item : RawLineItem) (k : String) : Option JVal :=
  (((item.properties.getD []).reverse.find? (fun p => p.name == k)).map RawProp.value)

/-- The area-pricing trigger: `props.Length && props.Width && props.PricePerSqFt`
— truthiness of all three property values. -/
def areaOverride (item : RawLineItem) : Bool :=
  truthy (getProp item "Length") && truthy (getProp item "Width") &&
    truthy (getProp item "PricePerSqFt")

/-- Base unit amount: `parseFloat(item.price) || 0`. -/
def baseUnitAmount (item : RawLineItem) : JNum :=
  (parseFloatU item.price).getD ⟨0, 1⟩

/-- Base description: `item.title || item.name || "Product"`. -/
def baseDescription (item : RawLineItem) : JVal :=
  jsOr3 item.title item.name (JVal.jstr "Product")

/-- Base quantity: `parseInt(item.quantity) || 1` (`NaN` and `0` default to 1). -/
def baseQuantity (item : RawLineItem) : Int :=
  match parseIntU item.quantity with
  | none => 1
  | some n => if n = 0 then 1 else n

/-- The `itemCode` key: attached only when `item.sku` is truthy. -/
def itemCodeOf (item : RawLineItem) : Option JVal :=
  if truthy item.sku then item.sku else none

/-- The `taxType` key: `"OUTPUT"` only when `item.taxable` is truthy. -/
def taxTypeOf (item : RawLineItem) : Option String :=
  if truthy item.taxable then some "OUTPUT" else none

/-- The canonical line produced when the area override does not trigger. -/
def baseLine (item : RawLineItem) : CanonicalLine :=
  { description := baseDescription item
    quantity := baseQuantity item
    unitAmount := (baseUnitAmount item).toFixed2
    accountCode := "200"
    itemCode := itemCodeOf item
    taxType := taxTypeOf item }

/-- `parseFloat(props.Length) * parseFloat(props.Width)` (`NaN`-propagating). -/
def areaOf (item : RawLineItem) : Option JNum :=
  mulN (parseFloatU (getProp item "Length")) (parseFloatU (getProp item "Width"))

/-- `area * parseFloat(props.PricePerSqFt)` (`NaN`-propagating). -/
def areaUnitAmount (item : RawLineItem) : Option JNum :=
  mulN (areaOf item) (parseFloatU (getProp item "PricePerSqFt"))

/-- The canonical line produced when the area override triggers. -/
def areaLine (item : RawLineItem) : CanonicalLine :=
  { description := JVal.jstr
      (jsToString item.title ++ " - " ++ jsToString (getProp item "Length") ++
        "ft x " ++ jsToString (getProp item "Width") ++ "ft (" ++
        toFixed2N (areaOf item) ++ " sq ft)")
    quantity := 1
    unitAmount := toFixed2N (areaUnitAmount item)
    accountCode := "200"
    itemCode := itemCodeOf item
    taxType := taxTypeOf item }

/-- The line-item normaliser: one raw line item to one canonical line
(the body of the `map` in `transformOrderToInvoice`). -/
def lineOfItem (item : RawLineItem) : CanonicalLine :=
  if areaOverride item then areaLine item else baseLine item

/-! ## Contact resolution, synthetic lines, document assembly -/

/-- `order.customer || {}`. -/
def customerOf (order : RawOrder) : RawCustomer :=
  order.customer.getD {}

/-- `order.billing_address || customer.default_address || {}` (objects are
always truthy in JS, so the first present one wins). -/
def billingOf (order : RawOrder) : RawAddress :=
  (order.billing_address <|> (customerOf order).default_address).getD {}

/-- The resolved contact name. -/
def contactName (order : RawOrder) : JVal :=
  if truthy (customerOf order).first_name && truthy (customerOf order).last_name then
    JVal.jstr (jsToString (customerOf order).first_name ++ " " ++
      jsToString (customerOf order).last_name)
  else
    jsOr3 (billingOf order).name order.customer_name (JVal.jstr "Walk-in Customer")

/-- The contact built by `transformOrderToInvoice`. -/
def contactOf (order : RawOrder) : Contact :=
  let billing := billingOf order
  { name := contactName order
    emailAddress :=
      if truthy order.email then order.email
      else if truthy (customerOf order).email then (customerOf order).email
      else billing.email
    phone := if truthy billing.phone then billing.phone else none
    addresses :=
      if truthy billing.address1 then
        [{ addressType := "POBOX"
           addressLine1 := billing.address1.getD (JVal.jstr "")
           addressLine2 := jsOrD billing.address2 (JVal.jstr "")
           city := jsOrD billing.city (JVal.jstr "")
           region := jsOr3 billing.province billing.state (JVal.jstr "")
           postalCode := jsOrD billing.zip (JVal.jstr "")
           country := jsOrD billing.country (JVal.jstr "") }]
      else [] }

/-- The base line items: `(order.line_items || []).map(...)`. -/
def baseLineItems (order : RawOrder) : List CanonicalLine :=
  (order.line_items.getD []).map lineOfItem

/-- `order.shipping_lines?.[0]?.price`. -/
def shippingRaw (order : RawOrder) : Option JVal :=
  (order.shipping_lines.bind List.head?).bind RawShippingLine.price

/-- `parseFloat(order.shipping_lines?.[0]?.price || 0)`. -/
def shippingAmount (order : RawOrder) : Option JNum :=
  parseFloatU (if truthy (shippingRaw order) then shippingRaw order
               else some (JVal.jnum ⟨0, 1⟩))

/-- `parseFloat(order.total_discounts) || 0`. -/
def discountAmount (order : RawOrder) : JNum :=
  (parseFloatU order.total_discounts).getD ⟨0, 1⟩

/-- The synthetic `"Shipping"` line, appended when `shippingAmount > 0`. -/
def shippingLines (order : RawOrder) : List CanonicalLine :=
  match shippingAmount order with
  | some s =>
    if s.isPos then
      [{ description := JVal.jstr "Shipping", quantity := 1,
         unitAmount := s.toFixed2, accountCode := "200" }]
    else []
  | none => []

/-- The synthetic `"Discount"` line, appended when `discountAmount > 0`,
with the negated amount. -/
def discountLines (order : RawOrder) : List CanonicalLine :=
  if (discountAmount order).isPos then
    [{ description := JVal.jstr "Discount", quantity := 1,
       unitAmount := (discountAmount order).neg.toFixed2, accountCode := "200" }]
  else []

/-- The order → invoice transformation (`transformOrderToInvoice`), with the
wall-clock reads injected as `clock`. -/
def transformOrderToInvoice (clock : Clock) (order : RawOrder) : InvoiceDoc :=
  { type := "ACCREC"
    contact := contactOf order
    lineItems := (baseLineItems order ++ shippingLines order) ++ discountLines order
    date := clock.todayISO
    dueDate := clock.duePlus30ISO
    invoiceNumber := jsOr3 order.order_number order.name
      (JVal.jstr ("INV-" ++ toString clock.nowMs))
    reference := "Order: " ++ jsToString (jsOr order.order_number order.id)
    status := "AUTHORISED"
    currencyCode := jsOrD order.currency (JVal.jstr "USD")
    lineAmountTypes := if truthy order.note then some "Exclusive" else none }

/-! ## The quote → draft-invoice route (`POST /api/send-quote-to-xero`) -/

/-- The `customer` object of a quote request. -/
structure QuoteCustomer where
  name : Option JVal := none
  email : Option JVal := none
  phone : Option JVal := none
deriving DecidableEq, Repr

/-- One entry of a quote request's `items` list. -/
structure QuoteItem where
  description : Option JVal := none
  quantity : Option JVal := none
  unitAmount : Option JVal := none
deriving DecidableEq, Repr

/-- A quote request body. -/
structure QuoteRequest where
  quoteId : Option JVal := none
  customer : Option QuoteCustomer := none
  items : Option (List QuoteItem) := none
deriving DecidableEq, Repr

/-- One line of the payload the quote route sends to the accounting API
(the route passes the raw item values through unparsed). -/
structure QuoteLinePayload where
  Description : Option JVal
  Quantity : Option JVal
  UnitAmount : Option JVal
  AccountCode : String
deriving DecidableEq, Repr

/-- The contact of the quote payload; `EmailAddress`/`Phone` are attached only
when the corresponding customer field is truthy. -/
structure QuoteContactPayload where
  Name : JVal
  EmailAddress : Option JVal := none
  Phone : Option JVal := none
deriving DecidableEq, Repr

/-- The invoice payload the quote route sends upstream (field `Type` of the
source is spelled `type` here, `Type` being reserved in Lean). -/
structure QuoteInvoicePayload where
  type : String
  Contact : QuoteContactPayload
  LineItems : List QuoteLinePayload
  Status : String
  LineAmountTypes : String
  Reference : String
  Date : String
  DueDate : String
deriving DecidableEq, Repr

/-- Outcome of the quote route up to the upstream call: either an early
validation error (HTTP 400, nothing sent upstream) or the payload handed to
`xero.accountingApi.createInvoices`. -/
inductive QuoteOutcome where
  | validationError (message : String)
  | xeroCall (payload : QuoteInvoicePayload)
deriving DecidableEq, Repr

/-- `customer?.name` of a quote request. -/
def quoteCustomerName (req : QuoteRequest) : Option JVal :=
  req.customer.bind QuoteCustomer.name

/-- The pure part of the `send-quote-to-xero` route handler: validation first,
then the payload construction that feeds the (external) invoice-creation call. -/
def sendQuoteToXero (clock : Clock) (req : QuoteRequest) : QuoteOutcome :=
  if !truthy req.quoteId || !truthy (quoteCustomerName req) then
    QuoteOutcome.validationError "Customer name and quote ID are required"
  else if (req.items.getD []).isEmpty then
    QuoteOutcome.validationError "Items list cannot be empty"
  else
    QuoteOutcome.xeroCall
      { type := "ACCREC"
        Contact :=
          { Name := (quoteCustomerName req).getD (JVal.jstr "")
            EmailAddress :=
              if truthy (req.customer.bind QuoteCustomer.email) then
                req.customer.bind QuoteCustomer.email
              else none
            Phone :=
              if truthy (req.customer.bind QuoteCustomer.phone) then
                req.customer.bind QuoteCustomer.phone
              else none }
        LineItems := (req.items.getD []).map (fun item =>
          { Description := item.description
            Quantity := item.quantity
            UnitAmount := item.unitAmount
            AccountCode := "200" })
        Status := "DRAFT"
        LineAmountTypes := "Exclusive"
        Reference := "Quote: " ++ jsToString req.quoteId
        Date := clock.todayISO
        DueDate := clock.duePlus30ISO }

/-! ## The legacy Shopify webhook route (`src/routes/shopifyWebhook.js`)

This older route builds its invoice inline: it always area-prices the first
line item, defaulting `PricePerSqFt` to `1.5`, and its line items carry no
`accountCode` key at all. -/

/-- A line item of the legacy webhook's invoice.  The source object has no
`accountCode` key, so the field is always `none` here. -/
structure WebhookLine where
  description : String
  quantity : Int
  unitAmount : String
  accountCode : Option String := none
deriving DecidableEq, Repr

/-- The contact of the legacy webhook's invoice. -/
structure WebhookContact where
  emailAddress : Option JVal
  name : String
deriving DecidableEq, Repr

/-- The legacy webhook's invoice document. -/
structure WebhookInvoice where
  type : String
  contact : WebhookContact
  lineItems : List WebhookLine
  status : String
deriving DecidableEq, Repr

/-- Property lookup over a raw `properties` list (last entry wins). -/
def propLookup (ps : List RawProp) (k : String) : Option JVal :=
  ((ps.reverse.find? (fun p => p.name == k)).map RawProp.value)

/-- The pure part of the legacy webhook handler.  `none` models the handler
throwing (caught as an HTTP 500): it dereferences `line_items[0]`,
`item.properties` and `order.customer` unguarded. -/
def shopifyWebhookInvoice (order : RawOrder) : Option WebhookInvoice :=
  match order.line_items with
  | none => none
  | some items =>
    match items.head? with
    | none => none
    | some item =>
      match item.properties with
      | none => none
      | some props =>
        match order.customer with
        | none => none
        | some customer =>
          let area := mulN (parseFloatU (propLookup props "Length"))
            (parseFloatU (propLookup props "Width"))
          let price := mulN area
            (parseFloatV (jsOrD (propLookup props "PricePerSqFt") (JVal.jnum ⟨15, 10⟩)))
          some
            { type := "ACCREC"
              contact :=
                { emailAddress := order.email
                  name := jsToString customer.first_name ++ " " ++
                    jsToString customer.last_name }
              lineItems :=
                [{ description := jsToString item.title ++ " - " ++
                     jsToString (propLookup props "Length") ++ "ft x " ++
                     jsToString (propLookup props "Width") ++ "ft"
                   quantity := 1
                   unitAmount := toFixed2N price }]
              status := "AUTHORISED" }

/-! ## Derived predicates and concrete inputs used by the claim theorems -/

/-- Does a (possibly absent) value parse to a strictly positive number? -/
def parsesPositive (v : Option JVal) : Bool :=
  match parseFloatU v with
  | some q => q.isPos
  | none => false

/-- A fixed clock for concrete evaluations. -/
def clk0 : Clock := { todayISO := "2026-10-11", duePlus30ISO := "2026-11-10", nowMs := 0 }

/-- An entirely empty raw order (every field absent). -/
def emptyOrder : RawOrder := {}

/-- A line item whose `properties` contain the keys `Length`, `Width` and
`PricePerSqFt`, but with the numeric value `0` for `Length` (a falsy value). -/
def c1cexItem : RawLineItem :=
  { title := some (JVal.jstr "Rug")
    quantity := some (JVal.jnum ⟨2, 1⟩)
    price := some (JVal.jnum ⟨5, 1⟩)
    properties := some [⟨"Length", JVal.jnum ⟨0, 1⟩⟩, ⟨"Width", JVal.jnum ⟨8, 1⟩⟩,
      ⟨"PricePerSqFt", JVal.jstr "1.5"⟩] }

/-- A line item carrying the area-pricing triple `10 × 8 × 1.5`. -/
def c1okItem : RawLineItem :=
  { title := some (JVal.jstr "Custom Rug")
    quantity := some (JVal.jnum ⟨3, 1⟩)
    price := some (JVal.jstr "50")
    properties := some [⟨"Length", JVal.jstr "10"⟩, ⟨"Width", JVal.jstr "8"⟩,
      ⟨"PricePerSqFt", JVal.jstr "1.5"⟩] }

/-- A line item with an unparsable price and the area triple present. -/
def c2cexItem : RawLineItem :=
  { title := some (JVal.jstr "Rug")
    quantity := some (JVal.jstr "xyz")
    price := some (JVal.jstr "abc")
    properties := some [⟨"Length", JVal.jstr "10"⟩, ⟨"Width", JVal.jstr "8"⟩,
      ⟨"PricePerSqFt", JVal.jstr "1.5"⟩] }

/-- A line item with unparsable price and quantity and no properties. -/
def c2okItem : RawLineItem :=
  { title := some (JVal.jstr "Widget")
    quantity := some (JVal.jstr "n/a")
    price := some (JVal.jstr "abc") }

/-! ## Helper lemmas -/

/-- A numerically zero `JNum` always renders as `"0.00"` under `toFixed2`. -/
theorem JNum.toFixed2_of_isZero (q : JNum) (h : q.isZero = true) :
    q.toFixed2 = "0.00" := by
  obtain ⟨n, d⟩ := q
  have hn : n = 0 := by simpa [JNum.isZero] using h
  subst hn
  have ha : d / (2 * d) = 0 := by
    cases d with
    | zero => decide
    | succ k =>
      apply Nat.div_eq_of_lt
      omega
  simp [JNum.toFixed2, ha]
  decide

/-- A falsy value never parses to a strictly positive number. -/
theorem falsy_not_parsesPositive (v : Option JVal) (h : truthy v = false) :
    parsesPositive v = false := by
  match v with
  | none => decide
  | some JVal.jnull => decide
  | some (JVal.jbool b) =>
    have : b = false := by simpa [truthy] using h
    subst this; decide
  | some (JVal.jnum q) =>
    have hz : q.isZero = true := by simpa [truthy] using h
    obtain ⟨n, d⟩ := q
    have hn : n = 0 := by simpa [JNum.isZero] using hz
    subst hn
    simp [parsesPositive, parseFloatU, parseFloatV, JNum.isPos]
  | some (JVal.jstr s) =>
    have : s = "" := by simpa [truthy] using h
    subst this; decide

/-! ## Claim C1 -/

/-- C1, as stated, is false: mere presence of the three keys does not trigger
the override — their values must be truthy.  With `Length` having the (falsy)
numeric value `0`, all three keys are present, yet the produced line keeps the
input quantity `2` and the base unit amount `"5.00"` instead of the claimed
quantity `1` and area amount `(0 × 8 × 1.5).toFixed(2) = "0.00"`. -/
theorem C1_counterexample :
    (getProp c1cexItem "Length").isSome = true ∧
    (getProp c1cexItem "Width").isSome = true ∧
    (getProp c1cexItem "PricePerSqFt").isSome = true ∧
    (lineOfItem c1cexItem).quantity = 2 ∧
    (lineOfItem c1cexItem).unitAmount = "5.00" ∧
    (lineOfItem c1cexItem).unitAmount ≠ toFixed2N (areaUnitAmount c1cexItem) := by
  decide

/-- C1 (amended: the three property values must be truthy, not merely
present): the override then produces the area-priced line — unit amount
`Length × Width × PricePerSqFt` to 2 decimal places, quantity forced to 1,
and the templated description. -/
theorem C1_area_override (item : RawLineItem)
    (hL : truthy (getProp item "Length") = true)
    (hW : truthy (getProp item "Width") = true)
    (hP : truthy (getProp item "PricePerSqFt") = true) :
    lineOfItem item = areaLine item ∧
    (lineOfItem item).unitAmount = toFixed2N (areaUnitAmount item) ∧
    (lineOfItem item).quantity = 1 ∧
    (lineOfItem item).description = JVal.jstr
      (jsToString item.title ++ " - " ++ jsToString (getProp item "Length") ++
        "ft x " ++ jsToString (getProp item "Width") ++ "ft (" ++
        toFixed2N (areaOf item) ++ " sq ft)") := by
  have h : areaOverride item = true := by
    simp [areaOverride, hL, hW, hP]
  refine ⟨by simp [lineOfItem, h], ?_, ?_, ?_⟩ <;> simp [lineOfItem, h, areaLine]

/-- C1 witness: `Length=10, Width=8, PricePerSqFt=1.5` yields `"120.00"`,
quantity 1, and description `"Custom Rug - 10ft x 8ft (80.00 sq ft)"`. -/
theorem C1_area_override_witness :
    truthy (getProp c1okItem "Length") = true ∧
    truthy (getProp c1okItem "Width") = true ∧
    truthy (getProp c1okItem "PricePerSqFt") = true ∧
    (lineOfItem c1okItem).unitAmount = "120.00" ∧
    (lineOfItem c1okItem).quantity = 1 ∧
    (lineOfItem c1okItem).description = JVal.jstr "Custom Rug - 10ft x 8ft (80.00 sq ft)" := by
  have h := C1_area_override c1okItem (by decide) (by decide) (by decide)
  exact ⟨by decide, by decide, by decide, h.2.1.trans (by decide), h.2.2.1,
    h.2.2.2.trans (by decide)⟩

/-! ## Claim C2 -/

/-- C2, as stated, is false: an unparsable price does not yield `"0.00"` when
the area-pricing override triggers — the override amount wins. -/
theorem C2_counterexample :
    parseFloatU c2cexItem.price = none ∧
    (lineOfItem c2cexItem).unitAmount = "120.00" ∧
    (lineOfItem c2cexItem).unitAmount ≠ "0.00" := by
  decide

/-- C2 (amended: the `"0.00"` default applies when the area-pricing override
does not trigger): normalisation is total (this function never throws);
an unparsable quantity always defaults to 1, and an unparsable price defaults
to unit amount `"0.00"` whenever the override does not trigger. -/
theorem C2_lenient_defaults (item : RawLineItem) :
    (parseIntU item.quantity = none → (lineOfItem item).quantity = 1) ∧
    (parseFloatU item.price = none → areaOverride item = false →
      (lineOfItem item).unitAmount = "0.00") := by
  constructor
  · intro hq
    by_cases h : areaOverride item = true
    · simp [lineOfItem, h, areaLine]
    · simp only [Bool.not_eq_true] at h
      simp [lineOfItem, h, baseLine, baseQuantity, hq]
  · intro hp hov
    simp [lineOfItem, hov, baseLine, baseUnitAmount, hp]
    decide

/-- C2 witness: with quantity `"n/a"` and price `"abc"` the produced line is
quantity 1 at `"0.00"`. -/
theorem C2_lenient_defaults_witness :
    parseIntU c2okItem.quantity = none ∧
    parseFloatU c2okItem.price = none ∧
    (lineOfItem c2okItem).quantity = 1 ∧
    (lineOfItem c2okItem).unitAmount = "0.00" := by
  have h := C2_lenient_defaults c2okItem
  exact ⟨by decide, by decide, h.1 (by decide), h.2 (by decide) (by decide)⟩

/-! ## Claim C3 -/

/-- The `"Shipping"` line is appended exactly when `shipping_lines[0].price`
parses to a strictly positive number, and carries that amount. -/
theorem shippingLines_eq (o : RawOrder) :
    shippingLines o =
      if parsesPositive (shippingRaw o) = true then
        [{ description := JVal.jstr "Shipping", quantity := 1,
           unitAmount := ((parseFloatU (shippingRaw o)).getD ⟨0, 1⟩).toFixed2,
           accountCode := "200" }]
      else [] := by
  cases htr : truthy (shippingRaw o) with
  | false =>
    have hpp := falsy_not_parsesPositive _ htr
    simp [shippingLines, shippingAmount, htr, hpp, parseFloatU, parseFloatV, JNum.isPos]
  | true =>
    cases hp : parseFloatU (shippingRaw o) with
    | none => simp [shippingLines, shippingAmount, htr, hp, parsesPositive]
    | some q =>
      cases hq : q.isPos with
      | false => simp [shippingLines, shippingAmount, htr, hp, parsesPositive, hq]
      | true => simp [shippingLines, shippingAmount, htr, hp, parsesPositive, hq]

/-- The `"Discount"` line is appended exactly when `total_discounts` parses to
a strictly positive number, and carries the negated amount. -/
theorem discountLines_eq (o : RawOrder) :
    discountLines o =
      if parsesPositive o.total_discounts = true then
        [{ description := JVal.jstr "Discount", quantity := 1,
           unitAmount := ((parseFloatU o.total_discounts).getD ⟨0, 1⟩).neg.toFixed2,
           accountCode := "200" }]
      else [] := by
  cases hp : parseFloatU o.total_discounts with
  | none =>
    simp [discountLines, discountAmount, hp, parsesPositive, JNum.isPos]
  | some q =>
    cases hq : q.isPos with
    | false => simp [discountLines, discountAmount, hp, parsesPositive, hq]
    | true => simp [discountLines, discountAmount, hp, parsesPositive, hq]

/-- C3: with `shipping_lines:[{price:15}]` and `total_discounts:5` the line
list is the base lines plus exactly a `"Shipping"` line at `"15.00"` and a
`"Discount"` line at `"-5.00"` (both with account code `"200"`); in general
the synthetic lines are appended exactly when the respective amount parses to
a strictly positive number. -/
theorem C3_shipping_discount (clock : Clock) (order : RawOrder)
    (hs : order.shipping_lines = some [{ price := some (JVal.jnum ⟨15, 1⟩) }])
    (hd : order.total_discounts = some (JVal.jnum ⟨5, 1⟩)) :
    (transformOrderToInvoice clock order).lineItems
      = baseLineItems order ++
        [{ description := JVal.jstr "Shipping", quantity := 1, unitAmount := "15.00",
           accountCode := "200" },
         { description := JVal.jstr "Discount", quantity := 1, unitAmount := "-5.00",
           accountCode := "200" }] ∧
    (transformOrderToInvoice clock order).lineItems.length
      = (baseLineItems order).length + 2 ∧
    (∀ (c : Clock) (o : RawOrder),
      (transformOrderToInvoice c o).lineItems
        = (baseLineItems o ++
            (if parsesPositive (shippingRaw o) = true then
              [{ description := JVal.jstr "Shipping", quantity := 1,
                 unitAmount := ((parseFloatU (shippingRaw o)).getD ⟨0, 1⟩).toFixed2,
                 accountCode := "200" }] else [])) ++
          (if parsesPositive o.total_discounts = true then
            [{ description := JVal.jstr "Discount", quantity := 1,
               unitAmount := ((parseFloatU o.total_discounts).getD ⟨0, 1⟩).neg.toFixed2,
               accountCode := "200" }] else [])) := by
  have hraw : shippingRaw order = some (JVal.jnum ⟨15, 1⟩) := by
    simp [shippingRaw, hs]
  have h1 : shippingLines order
      = [{ description := JVal.jstr "Shipping", quantity := 1, unitAmount := "15.00",
           accountCode := "200" }] := by
    simp only [shippingLines, shippingAmount, hraw]
    decide
  have h2 : discountLines order
      = [{ description := JVal.jstr "Discount", quantity := 1, unitAmount := "-5.00",
           accountCode := "200" }] := by
    simp only [discountLines, discountAmount, hd]
    decide
  refine ⟨?_, ?_, ?_⟩
  · simp only [transformOrderToInvoice]
    rw [h1, h2, List.append_assoc]
    rfl
  · simp only [transformOrderToInvoice]
    rw [h1, h2]
    simp [List.length_append]
  · intro c o
    simp only [transformOrderToInvoice]
    rw [shippingLines_eq, discountLines_eq]

/-- A concrete base line item for the C3/C4 orders. -/
def c3item : RawLineItem :=
  { title := some (JVal.jstr "Chair")
    quantity := some (JVal.jnum ⟨2, 1⟩)
    price := some (JVal.jnum ⟨40, 1⟩) }

/-- A concrete order with shipping price 15 and total discounts 5. -/
def c3order : RawOrder :=
  { line_items := some [c3item]
    shipping_lines := some [{ price := some (JVal.jnum ⟨15, 1⟩) }]
    total_discounts := some (JVal.jnum ⟨5, 1⟩) }

/-- C3 witness at a concrete order. -/
theorem C3_shipping_discount_witness :
    (transformOrderToInvoice clk0 c3order).lineItems
      = baseLineItems c3order ++
        [{ description := JVal.jstr "Shipping", quantity := 1, unitAmount := "15.00",
           accountCode := "200" },
         { description := JVal.jstr "Discount", quantity := 1, unitAmount := "-5.00",
           accountCode := "200" }] ∧
    (transformOrderToInvoice clk0 c3order).lineItems.length
      = (baseLineItems c3order).length + 2 := by
  have h := C3_shipping_discount clk0 c3order rfl rfl
  exact ⟨h.1, h.2.1⟩

/-! ## Claim C4 -/

/-- C4, as stated, is false: on an order with no line items, no shipping and
no discounts, `transformOrderToInvoice` returns a document whose `lineItems`
list is empty. -/
theorem C4_counterexample :
    (transformOrderToInvoice clk0 emptyOrder).lineItems = [] ∧
    ¬(1 ≤ (transformOrderToInvoice clk0 emptyOrder).lineItems.length) := by
  decide

/-- C4 (amended: restricted to orders with at least one raw line item; the
transformation itself is a total function, so it indeed never fails): the
produced document has at least one line item. -/
theorem C4_nonempty (clock : Clock) (order : RawOrder)
    (h : order.line_items.getD [] ≠ []) :
    1 ≤ (transformOrderToInvoice clock order).lineItems.length := by
  have hb : 0 < (baseLineItems order).length := by
    simp only [baseLineItems, List.length_map]
    exact List.length_pos.mpr h
  simp only [transformOrderToInvoice, List.length_append]
  omega

/-- A concrete order with a single line item and nothing else. -/
def c4order : RawOrder := { line_items := some [c3item] }

/-- C4 witness at a concrete one-item order. -/
theorem C4_nonempty_witness :
    c4order.line_items.getD [] ≠ [] ∧
    1 ≤ (transformOrderToInvoice clk0 c4order).lineItems.length :=
  ⟨by decide, C4_nonempty clk0 c4order (by decide)⟩

/-! ## Claim C5 -/

/-- C5: a quote request missing `quoteId` or `customer.name`, or whose items
list is absent or empty, is rejected with a validation error (whose message
names the offending fields) and never reaches the invoice-creation call. -/
theorem C5_quote_validation (clock : Clock) (req : QuoteRequest)
    (h : req.quoteId = none ∨ quoteCustomerName req = none ∨ req.items.getD [] = []) :
    (sendQuoteToXero clock req
        = QuoteOutcome.validationError "Customer name and quote ID are required" ∨
     sendQuoteToXero clock req
        = QuoteOutcome.validationError "Items list cannot be empty") ∧
    ∀ payload, sendQuoteToXero clock req ≠ QuoteOutcome.xeroCall payload := by
  rcases h with h | h | h
  · have hq : truthy req.quoteId = false := by rw [h]; rfl
    have hb : (!truthy req.quoteId || !truthy (quoteCustomerName req)) = true := by
      simp [hq]
    exact ⟨Or.inl (by simp [sendQuoteToXero, hb]),
      fun p => by simp [sendQuoteToXero, hb]⟩
  · have hq : truthy (quoteCustomerName req) = false := by rw [h]; rfl
    have hb : (!truthy req.quoteId || !truthy (quoteCustomerName req)) = true := by
      simp [hq]
    exact ⟨Or.inl (by simp [sendQuoteToXero, hb]),
      fun p => by simp [sendQuoteToXero, hb]⟩
  · have hempty : (req.items.getD []).isEmpty = true := by rw [h]; rfl
    by_cases hb : (!truthy req.quoteId || !truthy (quoteCustomerName req)) = true
    · exact ⟨Or.inl (by simp [sendQuoteToXero, hb]),
        fun p => by simp [sendQuoteToXero, hb]⟩
    · have hb' : (!truthy req.quoteId || !truthy (quoteCustomerName req)) = false := by
        simpa using hb
      exact ⟨Or.inr (by simp [sendQuoteToXero, hb', hempty]),
        fun p => by simp [sendQuoteToXero, hb', hempty]⟩

/-- The entirely empty quote request. -/
def c5req : QuoteRequest := {}

/-- C5 witness: the empty quote request fails on the required-fields check. -/
theorem C5_quote_validation_witness :
    sendQuoteToXero clk0 c5req
      = QuoteOutcome.validationError "Customer name and quote ID are required" :=
  (C5_quote_validation clk0 c5req (Or.inl rfl)).1.resolve_right (by decide)

/-! ## Claim C6 -/

/-- C6: when `properties` carry `Length` and `Width` but no `PricePerSqFt`,
the area override does not trigger and the base line is produced unchanged
(unit amount from `price`, quantity from `quantity`, description from
`title`/`name`). -/
theorem C6_no_override (item : RawLineItem)
    (hP : getProp item "PricePerSqFt" = none)
    (_hL : (getProp item "Length").isSome = true)
    (_hW : (getProp item "Width").isSome = true) :
    lineOfItem item = baseLine item ∧
    (lineOfItem item).unitAmount = (baseUnitAmount item).toFixed2 ∧
    (lineOfItem item).quantity = baseQuantity item ∧
    (lineOfItem item).description = baseDescription item := by
  have h : areaOverride item = false := by
    simp [areaOverride, hP, truthy]
  refine ⟨by simp [lineOfItem, h], ?_, ?_, ?_⟩ <;> simp [lineOfItem, h, baseLine]

/-- A line item with `Length` and `Width` properties but no `PricePerSqFt`. -/
def c6item : RawLineItem :=
  { title := some (JVal.jstr "Mat")
    quantity := some (JVal.jstr "2")
    price := some (JVal.jstr "99.5")
    properties := some [⟨"Length", JVal.jstr "10"⟩, ⟨"Width", JVal.jstr "8"⟩] }

/-- C6 witness: base pricing applies on a concrete `Length`/`Width`-only item. -/
theorem C6_no_override_witness :
    getProp c6item "PricePerSqFt" = none ∧
    (getProp c6item "Length").isSome = true ∧
    (getProp c6item "Width").isSome = true ∧
    lineOfItem c6item = baseLine c6item ∧
    (lineOfItem c6item).unitAmount = "99.50" ∧
    (lineOfItem c6item).quantity = 2 ∧
    (lineOfItem c6item).description = JVal.jstr "Mat" := by
  have h := C6_no_override c6item (by decide) (by decide) (by decide)
  exact ⟨by decide, by decide, by decide, h.1, h.2.1.trans (by decide),
    h.2.2.1.trans (by decide), h.2.2.2.trans (by decide)⟩

/-! ## Claim C7 -/

/-- An order whose customer has a present-but-empty `first_name` and a billing
name. -/
def c7order : RawOrder :=
  { customer := some { first_name := some (JVal.jstr ""), last_name := some (JVal.jstr "Smith") }
    billing_address := some { name := some (JVal.jstr "Billing Bob") } }

/-- C7, as stated, is false: both name parts are present (`first_name` is the
empty string), yet the resolver does not concatenate them — presence is not
enough, the code requires truthiness, so it falls back to the billing name. -/
theorem C7_counterexample :
    ((customerOf c7order).first_name).isSome = true ∧
    ((customerOf c7order).last_name).isSome = true ∧
    (contactOf c7order).name = JVal.jstr "Billing Bob" ∧
    (contactOf c7order).name
      ≠ JVal.jstr (jsToString (customerOf c7order).first_name ++ " " ++
          jsToString (customerOf c7order).last_name) := by
  decide

/-- C7 (amended: both name parts must be truthy — present and non-empty — not
merely present): then the contact name is the space-joined pair; otherwise the
fallback chain billing name → top-level `customer_name` → `"Walk-in Customer"`
applies, and with all of them falsy the name is exactly `"Walk-in Customer"`. -/
theorem C7_contact_name (order : RawOrder) :
    (truthy (customerOf order).first_name = true →
      truthy (customerOf order).last_name = true →
      (contactOf order).name = JVal.jstr
        (jsToString (customerOf order).first_name ++ " " ++
          jsToString (customerOf order).last_name)) ∧
    ((truthy (customerOf order).first_name && truthy (customerOf order).last_name) = false →
      (contactOf order).name
        = jsOr3 (billingOf order).name order.customer_name (JVal.jstr "Walk-in Customer")) ∧
    ((truthy (customerOf order).first_name && truthy (customerOf order).last_name) = false →
      truthy (billingOf order).name = false → truthy order.customer_name = false →
      (contactOf order).name = JVal.jstr "Walk-in Customer") := by
  refine ⟨?_, ?_, ?_⟩
  · intro h1 h2
    simp [contactOf, contactName, h1, h2]
  · intro h
    simp [contactOf, contactName, h]
  · intro h hb hc
    simp [contactOf, contactName, h, jsOr3, hb, hc]

/-- C7 witness: with no name sources at all the contact name is exactly
`"Walk-in Customer"`. -/
theorem C7_contact_name_witness :
    (contactOf emptyOrder).name = JVal.jstr "Walk-in Customer" :=
  (C7_contact_name emptyOrder).2.2 (by decide) (by decide) (by decide)

/-! ## Claim C8 -/

/-- The line item of the order fed to the legacy webhook route. -/
def c8witem : RawLineItem :=
  { title := some (JVal.jstr "Rug")
    properties := some [⟨"Length", JVal.jstr "10"⟩, ⟨"Width", JVal.jstr "8"⟩,
      ⟨"PricePerSqFt", JVal.jstr "1.5"⟩] }

/-- A well-formed order for the legacy webhook route. -/
def c8worder : RawOrder :=
  { email := some (JVal.jstr "jo@example.com")
    customer := some { first_name := some (JVal.jstr "Jo"), last_name := some (JVal.jstr "Doe") }
    line_items := some [c8witem] }

/-- C8, as stated, is false for the system as a whole: the mounted legacy
Shopify webhook route (`/webhook/shopify/order`) produces an invoice whose
line item carries no account code at all. -/
theorem C8_counterexample :
    (shopifyWebhookInvoice c8worder).map (fun inv => inv.lineItems.map WebhookLine.accountCode)
      = some [none] ∧
    some [(none : Option String)] ≠ some [some "200"] := by
  decide

/-- Every line in `shippingLines` carries account code `"200"`. -/
theorem mem_shippingLines_accountCode (o : RawOrder) (l : CanonicalLine)
    (h : l ∈ shippingLines o) : l.accountCode = "200" := by
  rw [shippingLines_eq] at h
  split at h
  · simp at h
    subst h
    rfl
  · simp at h

/-- Every line in `discountLines` carries account code `"200"`. -/
theorem mem_discountLines_accountCode (o : RawOrder) (l : CanonicalLine)
    (h : l ∈ discountLines o) : l.accountCode = "200" := by
  rw [discountLines_eq] at h
  split at h
  · simp at h
    subst h
    rfl
  · simp at h

/-- C8 (amended: restricted to the two current builders — every line produced
by `transformOrderToInvoice` and by the quote route carries the fixed account
code `"200"`; the legacy webhook route's lines carry no account code at all). -/
theorem C8_account_code :
    (∀ (clock : Clock) (order : RawOrder) (l : CanonicalLine),
      l ∈ (transformOrderToInvoice clock order).lineItems → l.accountCode = "200") ∧
    (∀ (clock : Clock) (req : QuoteRequest) (payload : QuoteInvoicePayload),
      sendQuoteToXero clock req = QuoteOutcome.xeroCall payload →
      ∀ l ∈ payload.LineItems, l.AccountCode = "200") ∧
    (∀ (order : RawOrder) (inv : WebhookInvoice),
      shopifyWebhookInvoice order = some inv →
      ∀ l ∈ inv.lineItems, l.accountCode = none) := by
  refine ⟨?_, ?_, ?_⟩
  · intro clock order l hl
    simp only [transformOrderToInvoice] at hl
    rcases List.mem_append.mp hl with h | h
    · rcases List.mem_append.mp h with h' | h'
      · obtain ⟨it, _, rfl⟩ := List.mem_map.mp h'
        by_cases ha : areaOverride it = true
        · simp [lineOfItem, ha, areaLine]
        · simp only [Bool.not_eq_true] at ha
          simp [lineOfItem, ha, baseLine]
      · exact mem_shippingLines_accountCode order l h'
    · exact mem_discountLines_accountCode order l h
  · intro clock req payload h l hl
    unfold sendQuoteToXero at h
    split at h
    · simp at h
    · split at h
      · simp at h
      · injection h with h'
        subst h'
        obtain ⟨it, _, rfl⟩ := List.mem_map.mp hl
        rfl
  · intro order inv h l hl
    unfold shopifyWebhookInvoice at h
    split at h
    · simp at h
    · split at h
      · simp at h
      · split at h
        · simp at h
        · split at h
          · simp at h
          · injection h with h'
            subst h'
            simp at hl
            subst hl
            rfl

/-- The concrete `"Shipping"` line appended to `c3order`. -/
def c8shipLine : CanonicalLine :=
  { description := JVal.jstr "Shipping", quantity := 1, unitAmount := "15.00",
    accountCode := "200" }

/-- The quote item of `c8qreq`. -/
def c8qitem : QuoteItem :=
  { description := some (JVal.jstr "Desk")
    quantity := some (JVal.jnum ⟨1, 1⟩)
    unitAmount := some (JVal.jnum ⟨10, 1⟩) }

/-- A valid quote request with one item. -/
def c8qreq : QuoteRequest :=
  { quoteId := some (JVal.jstr "Q1")
    customer := some { name := some (JVal.jstr "Ann") }
    items := some [c8qitem] }

/-- The single line of `c8qpayload`. -/
def c8qline : QuoteLinePayload :=
  { Description := some (JVal.jstr "Desk")
    Quantity := some (JVal.jnum ⟨1, 1⟩)
    UnitAmount := some (JVal.jnum ⟨10, 1⟩)
    AccountCode := "200" }

/-- The payload the quote route builds from `c8qreq` under `clk0`. -/
def c8qpayload : QuoteInvoicePayload :=
  { type := "ACCREC"
    Contact := { Name := JVal.jstr "Ann" }
    LineItems := [c8qline]
    Status := "DRAFT"
    LineAmountTypes := "Exclusive"
    Reference := "Quote: Q1"
    Date := "2026-10-11"
    DueDate := "2026-11-10" }

/-- The line the legacy webhook route builds from `c8worder`. -/
def c8wline : WebhookLine :=
  { description := "Rug - 10ft x 8ft", quantity := 1, unitAmount := "120.00" }

/-- The invoice the legacy webhook route builds from `c8worder`. -/
def c8winv : WebhookInvoice :=
  { type := "ACCREC"
    contact := { emailAddress := some (JVal.jstr "jo@example.com"), name := "Jo Doe" }
    lineItems := [c8wline]
    status := "AUTHORISED" }

/-- C8 witness, one concrete line through each of the three producers. -/
theorem C8_account_code_witness :
    c8shipLine ∈ (transformOrderToInvoice clk0 c3order).lineItems ∧
    c8shipLine.accountCode = "200" ∧
    sendQuoteToXero clk0 c8qreq = QuoteOutcome.xeroCall c8qpayload ∧
    c8qline ∈ c8qpayload.LineItems ∧
    c8qline.AccountCode = "200" ∧
    shopifyWebhookInvoice c8worder = some c8winv ∧
    c8wline ∈ c8winv.lineItems ∧
    c8wline.accountCode = none := by
  refine ⟨by decide, ?_, by decide, by decide, ?_, by decide, by decide, ?_⟩
  · exact C8_account_code.1 clk0 c3order c8shipLine (by decide)
  · exact C8_account_code.2.1 clk0 c8qreq c8qpayload (by decide) c8qline (by decide)
  · exact C8_account_code.2.2 c8worder c8winv (by decide) c8wline (by decide)

/-! ## Claim C9 -/

/-- C9: the produced document carries `lineAmountTypes = "Exclusive"` exactly
when the order's `note` is truthy, and the key is absent when `note` is
absent. -/
theorem C9_lineAmountTypes (clock : Clock) (order : RawOrder) :
    ((transformOrderToInvoice clock order).lineAmountTypes = some "Exclusive" ↔
      truthy order.note = true) ∧
    (order.note = none → (transformOrderToInvoice clock order).lineAmountTypes = none) := by
  constructor
  · cases h : truthy order.note with
    | true => simp [transformOrderToInvoice, h]
    | false => simp [transformOrderToInvoice, h]
  · intro hn
    have h : truthy order.note = false := by rw [hn]; rfl
    simp [transformOrderToInvoice, h]

/-- An order with a free-text note. -/
def c9order : RawOrder := { note := some (JVal.jstr "leave at door") }

/-- C9 witness: note present and non-empty flips the field on; an absent note
leaves the key off. -/
theorem C9_lineAmountTypes_witness :
    (transformOrderToInvoice clk0 c9order).lineAmountTypes = some "Exclusive" ∧
    (transformOrderToInvoice clk0 emptyOrder).lineAmountTypes = none :=
  ⟨(C9_lineAmountTypes clk0 c9order).1.mpr (by decide),
   (C9_lineAmountTypes clk0 emptyOrder).2 rfl⟩

/-! ## Claim C10 -/

/-- A line item with the numeric price `0` and an active area-pricing triple. -/
def c10cexItem : RawLineItem :=
  { title := some (JVal.jstr "Panel")
    quantity := some (JVal.jnum ⟨4, 1⟩)
    price := some (JVal.jnum ⟨0, 1⟩)
    properties := some [⟨"Length", JVal.jstr "5"⟩, ⟨"Width", JVal.jstr "5"⟩,
      ⟨"PricePerSqFt", JVal.jstr "1"⟩] }

/-- C10, as stated, is false in its price clause: a price of `0` does not
yield `"0.00"` when the area-pricing override triggers — the override amount
wins regardless of the price. -/
theorem C10_counterexample :
    parseFloatU c10cexItem.price = some ⟨0, 1⟩ ∧
    (lineOfItem c10cexItem).unitAmount = "25.00" ∧
    (lineOfItem c10cexItem).unitAmount ≠ "0.00" := by
  decide

/-- C10 (amended: the price clause holds when the area-pricing override does
not trigger): a quantity parsing to `0` is billed as quantity `1` in every
case; outside the override a price parsing to `0` yields `"0.00"`; and a
zero price produces a line identical to that of an unparsable price. -/
theorem C10_zero_collapse (item : RawLineItem) :
    (parseIntU item.quantity = some 0 → (lineOfItem item).quantity = 1) ∧
    (∀ q, parseFloatU item.price = some q → q.isZero = true →
      areaOverride item = false → (lineOfItem item).unitAmount = "0.00") ∧
    (∀ (v w : Option JVal) (q : JNum), parseFloatU v = some q → q.isZero = true →
      parseFloatU w = none →
      lineOfItem { item with price := v } = lineOfItem { item with price := w }) := by
  refine ⟨?_, ?_, ?_⟩
  · intro hq
    by_cases h : areaOverride item = true
    · simp [lineOfItem, h, areaLine]
    · simp only [Bool.not_eq_true] at h
      simp [lineOfItem, h, baseLine, baseQuantity, hq]
  · intro q hp hz hov
    simp [lineOfItem, hov, baseLine, baseUnitAmount, hp, JNum.toFixed2_of_isZero q hz]
  · intro v w q hv hz hw
    have hbu : (baseUnitAmount { item with price := v }).toFixed2
        = (baseUnitAmount { item with price := w }).toFixed2 := by
      show ((parseFloatU v).getD ⟨0, 1⟩).toFixed2 = ((parseFloatU w).getD ⟨0, 1⟩).toFixed2
      rw [hv, hw]
      rw [Option.getD_some, Option.getD_none, JNum.toFixed2_of_isZero q hz]
      decide
    by_cases h : areaOverride { item with price := v } = true
    · have h' : areaOverride { item with price := w } = true := h
      simp only [lineOfItem, h, h', if_true]
      rfl
    · simp only [Bool.not_eq_true] at h
      have h' : areaOverride { item with price := w } = false := h
      simp only [lineOfItem, h, h', Bool.false_eq_true, if_false]
      show baseLine { item with price := v } = baseLine { item with price := w }
      unfold baseLine
      rw [hbu]
      rfl

/-- A line item with quantity `0` and the string price `"0"`. -/
def c10okItem : RawLineItem :=
  { title := some (JVal.jstr "Sticker")
    quantity := some (JVal.jnum ⟨0, 1⟩)
    price := some (JVal.jstr "0") }

/-- C10 witness: quantity `0` is billed as `1`, price `"0"` yields `"0.00"`,
and replacing the zero price by garbage changes nothing. -/
theorem C10_zero_collapse_witness :
    parseIntU c10okItem.quantity = some 0 ∧
    (lineOfItem c10okItem).quantity = 1 ∧
    (lineOfItem c10okItem).unitAmount = "0.00" ∧
    lineOfItem { c10okItem with price := some (JVal.jstr "0") }
      = lineOfItem { c10okItem with price := some (JVal.jstr "oops") } := by
  have h := C10_zero_collapse c10okItem
  exact ⟨by decide, h.1 (by decide),
    h.2.1 ⟨0, 1⟩ (by decide) (by decide) (by decide),
    h.2.2 (some (JVal.jstr "0")) (some (JVal.jstr "oops")) ⟨0, 1⟩
      (by decide) (by decide) (by decide)⟩
